import Mathlib

/-
Verification of the Luna confidence-coach engine (src/app.py) and the Luna
coherence framework (src/luna_framework.py).

The Python code is shallowly embedded: strings are Lean `String`s, the
regular expressions of the pattern library are given as a small syntax tree
`RE` together with a backtracking matcher `matchRE` that mirrors the
semantics of Python's `re` module for exactly the constructs those patterns
use (case-insensitive literals, the classes \s and \w, greedy +, * and
{2,} over a class, alternation tried left to right, word boundaries \b and
the end anchor $).  Floats are modelled as rationals; the wall clock read
by `datetime.now` is passed in explicitly as the `nowIso` argument.
-/

namespace Luna

/-- ASCII whitespace: the characters Python's `str.split`, `str.strip` and
the regex class `\s` treat as whitespace (restricted to ASCII). -/
def isSpace (c : Char) : Bool :=
  c = ' ' || c = '\t' || c = '\n' || c = '\r' || c = '\x0b' || c = '\x0c'

/-- A word character, Python's `\w` (restricted to ASCII). -/
def isWordChar (c : Char) : Bool :=
  c.isAlpha || c.isDigit || c = '_'

/-- The punctuation class `[.,!?;:]` used by the cleanup pass. -/
def isPunct (c : Char) : Bool :=
  c = '.' || c = ',' || c = '!' || c = '?' || c = ';' || c = ':'

/-- Python's `not text or not text.strip()`: the string is empty or
consists of whitespace only. -/
def isBlank (s : String) : Bool :=
  s.data.all isSpace

/-- Number of maximal non-whitespace runs: `len(text.split())`. -/
def wordsAux : List Char → Bool → Nat
  | [], _ => 0
  | c :: t, inWord =>
    if isSpace c then wordsAux t false
    else (if inWord then 0 else 1) + wordsAux t true

/-- `len(text.split())` in Python. -/
def wordCount (s : String) : Nat :=
  wordsAux s.data false

/-- The substring `s[a:b]` for natural indices `0 ≤ a`, `b` (Python slice
semantics: clamped at the ends, empty when `b ≤ a`). -/
def sliceNat (s : String) (a b : Nat) : String :=
  (((s.data).drop a).take (b - a)).asString

/-- The substring `s[a:]`. -/
def sliceFrom (s : String) (a : Nat) : String :=
  ((s.data).drop a).asString

/-- One slice bound of Python's `s[a:b]` for a possibly negative index:
negative indices count from the end, then the bound is clamped to
`[0, len(s)]`. -/
def pyBound (len : Nat) (i : Int) : Nat :=
  let j : Int := if i < 0 then i + len else i
  if j < 0 then 0 else min j.toNat len

/-- Python's slice `s[a:b]` with `int` indices. -/
def pySlice (s : String) (a b : Int) : String :=
  let lo := pyBound s.data.length a
  let hi := pyBound s.data.length b
  (((s.data).drop lo).take (hi - lo)).asString

/-! ### A tiny regex engine with Python `re` semantics -/

/-- Syntax of the regular expressions the pattern library uses.  Literal
characters are matched case-insensitively (all patterns are compiled with
`re.IGNORECASE`); `starCls`, `plusCls` and `rep2Cls` are the greedy
`c*`, `c+` and `c{2,}` over a single-character class. -/
inductive RE where
  | eps : RE
  | chr : Char → RE
  | cls : (Char → Bool) → RE
  | seq : RE → RE → RE
  | alt : RE → RE → RE
  | starCls : (Char → Bool) → RE
  | plusCls : (Char → Bool) → RE
  | rep2Cls : (Char → Bool) → RE
  | wb : RE
  | eos : RE

/-- Whether position `i` of `t` holds a word character (`false` out of
range). -/
def wordAt (t : List Char) (i : Nat) : Bool :=
  match t.get? i with
  | some c => isWordChar c
  | none => false

/-- Python's `\b` at position `p`: exactly one of the neighbouring
positions holds a word character. -/
def atBoundary (t : List Char) (p : Nat) : Bool :=
  (if p = 0 then false else wordAt t (p - 1)) != wordAt t p

/-- Length of the maximal run of characters satisfying `f` starting at
position `p`. -/
def clsRun (f : Char → Bool) (t : List Char) (p : Nat) : Nat :=
  (((t.drop p)).takeWhile f).length

/-- Greedy repetition: try the continuation after consuming `m`, `m - 1`,
…, `lo` characters, in that order (longest first, as a greedy Python
quantifier backtracks). -/
def tryDown (k : Nat → Option Nat) (p lo : Nat) : Nat → Option Nat
  | 0 => if lo = 0 then k p else none
  | m + 1 =>
    if m + 1 < lo then none
    else
      match k (p + (m + 1)) with
      | some r => some r
      | none => tryDown k p lo m

/-- The backtracking matcher: `matchRE r t p k` tries to match `r` in `t`
starting at position `p` and calls the continuation `k` with the position
after the part `r` consumed, returning the first success — exactly the
order in which Python's backtracking engine explores alternatives. -/
def matchRE : RE → List Char → Nat → (Nat → Option Nat) → Option Nat
  | .eps, _, p, k => k p
  | .chr c, t, p, k =>
    match t.get? p with
    | some d => if d.toLower = c.toLower then k (p + 1) else none
    | none => none
  | .cls f, t, p, k =>
    match t.get? p with
    | some d => if f d then k (p + 1) else none
    | none => none
  | .seq a b, t, p, k => matchRE a t p (fun q => matchRE b t q k)
  | .alt a b, t, p, k =>
    match matchRE a t p k with
    | some r => some r
    | none => matchRE b t p k
  | .starCls f, t, p, k => tryDown k p 0 (clsRun f t p)
  | .plusCls f, t, p, k => tryDown k p 1 (clsRun f t p)
  | .rep2Cls f, t, p, k => tryDown k p 2 (clsRun f t p)
  | .wb, t, p, k => if atBoundary t p then k p else none
  | .eos, t, p, k =>
    if p == t.length || (p + 1 == t.length && t.get? p == some '\n') then k p
    else none

/-- Match `r` exactly at position `p`, returning the end of the match. -/
def matchAt (r : RE) (t : List Char) (p : Nat) : Option Nat :=
  matchRE r t p some

/-- The scan of `re.finditer`: from position `pos`, the next match is the
leftmost one; the scan resumes at its end (one further for an empty
match).  `fuel` bounds the recursion; `t.length + 1 - pos` steps always
suffice. -/
def findFrom (r : RE) (t : List Char) : Nat → Nat → List (Nat × Nat)
  | 0, _ => []
  | fuel + 1, pos =>
    if pos > t.length then []
    else
      match matchAt r t pos with
      | some e =>
        if pos < e then (pos, e) :: findFrom r t fuel e
        else (pos, e) :: findFrom r t fuel (pos + 1)
      | none => findFrom r t fuel (pos + 1)

/-- All non-overlapping matches of `r` in `s`, left to right, as
`(start, end)` spans — `re.finditer` / `re.findall`. -/
def findall (r : RE) (s : String) : List (Nat × Nat) :=
  findFrom r s.data (s.data.length + 1) 0

/-- `len(re.findall(r, s, re.IGNORECASE))`. -/
def countMatches (r : RE) (s : String) : Nat :=
  (findall r s).length

/-- A case-insensitive literal. -/
def lit (s : String) : RE :=
  (s.data.map RE.chr).foldr RE.seq RE.eps

/-- `\b…\b` around a regex. -/
def wbd (r : RE) : RE :=
  .seq .wb (.seq r .wb)

/-- A word-bounded case-insensitive literal phrase `\bs\b`. -/
def plit (s : String) : RE :=
  wbd (lit s)

/-- Left-nested alternation `a|b|c|…` (tried left to right). -/
def altL (r : RE) (rs : List RE) : RE :=
  rs.foldl RE.alt r

/-! ### The coach (src/app.py, class LunaCoach) -/

namespace LunaCoach

/-- The `ChangeType` enum of src/app.py. -/
inductive ChangeType where
  | HEDGING_REMOVED
  | UNCERTAINTY_REMOVED
  | WEAK_VERB_STRENGTHENED
  | PASSIVE_TO_ACTIVE
  | QUESTION_TO_STATEMENT
  | QUALIFIER_REMOVED
  | FILLER_REMOVED
  | NEGATIVE_SELF_TALK_REFRAMED
  | INTENSIFIER_TONED_DOWN
  | GRAMMAR_FIXED
deriving DecidableEq, Repr

/-- The `Transformation` dataclass: one recorded change.  `start` and
`stop` (the source's `start`/`end` fields) are Python ints and may be
negative after shifting, hence `Int`. -/
structure Transformation where
  start : Int
  stop : Int
  before : String
  after : String
  change_type : ChangeType
  explanation : String
  confidence_impact : Nat
deriving DecidableEq, Repr

/-- The `TransformationReport` dataclass. -/
structure TransformationReport where
  original : String
  transformed : String
  changes : List Transformation
  confidence_before : ℚ
  confidence_after : ℚ
  total_words_removed : Int
  total_changes : Nat
  created_at_iso : String
deriving DecidableEq, Repr

/-- One entry of the pattern library: `(pattern, replacement, explanation,
confidence impact)`. -/
structure Rule where
  pat : RE
  repl : String
  expl : String
  impact : Nat

/-- `\b(kind|sort) of\b`. -/
def kindSortOfRE : RE :=
  .seq .wb (.seq (.alt (lit "kind") (lit "sort")) (.seq (lit " of") .wb))

/-- `\b(is|are|was|were|be|been|being)\s+\w+(ed|en)\s+by\b`. -/
def passiveRE : RE :=
  .seq .wb (.seq
    (altL (lit "is") [lit "are", lit "was", lit "were", lit "be", lit "been", lit "being"])
    (.seq (.plusCls isSpace)
      (.seq (.plusCls isWordChar)
        (.seq (.alt (lit "ed") (lit "en"))
          (.seq (.plusCls isSpace) (.seq (lit "by") .wb))))))

/-- `\?\s*$`. -/
def questionEndRE : RE :=
  .seq (.chr '?') (.seq (.starCls isSpace) .eos)

/-- `\s{2,}`. -/
def multiSpaceRE : RE :=
  .rep2Cls isSpace

/-- The `PATTERNS` dictionary of `LunaCoach`, in its source order
(category order, then rule order within each category). -/
def PATTERNS : List (String × List Rule) := [
  ("hedging", [
    ⟨plit "I think that", "", "Removes unnecessary thinking phrase.", 15⟩,
    ⟨plit "I think", "", "States sound stronger without hedging.", 14⟩,
    ⟨plit "I believe", "", "Belief is not evidence; say it directly.", 14⟩,
    ⟨plit "I feel like", "", "Replace feelings with facts and actions.", 14⟩,
    ⟨plit "maybe", "", "Removes hedging to clarify intent.", 10⟩,
    ⟨plit "perhaps", "", "Removes hedging to clarify intent.", 10⟩,
    ⟨plit "possibly", "", "Removes hedging to clarify intent.", 10⟩,
    ⟨plit "probably", "", "Removes hedging to clarify intent.", 10⟩,
    ⟨kindSortOfRE, "", "Eliminates vague qualifiers.", 12⟩,
    ⟨plit "basically", "", "Filler that weakens tone.", 8⟩,
    ⟨plit "actually", "", "Often unnecessary emphasis.", 8⟩]),
  ("uncertainty", [
    ⟨plit "I don't know if", "", "State what you can do next.", 20⟩,
    ⟨plit "I'm not sure", "", "Replace doubt with a decision or plan.", 18⟩,
    ⟨plit "not sure", "unclear", "Clarifies uncertainty to a clear term.", 15⟩,
    ⟨plit "mixed up", "unclear", "Clarifies confusion.", 12⟩]),
  ("weak_verbs", [
    ⟨plit "might be able to", "can", "Choose decisive capability.", 18⟩,
    ⟨plit "could be able to", "can", "Choose decisive capability.", 18⟩,
    ⟨plit "would be able to", "can", "Choose decisive capability.", 18⟩,
    ⟨plit "might be", "is", "Strengthens the claim.", 15⟩,
    ⟨plit "could be", "is", "Makes a definitive statement.", 15⟩,
    ⟨plit "seems to be", "is", "Converts appearance to fact.", 15⟩,
    ⟨plit "appears to be", "is", "States facts directly.", 15⟩,
    ⟨plit "tends to be", "is", "Smoother assertive phrasing.", 12⟩]),
  ("passive", [
    ⟨passiveRE, "", "Prefer active voice; name the actor.", 16⟩]),
  ("questions", [
    ⟨plit "What do you think?", "", "Avoid validation-seeking; propose an action.", 15⟩,
    ⟨plit "Should we?", ".", "Decide and state the plan.", 15⟩,
    ⟨questionEndRE, ".", "Convert question to a decision-oriented statement.", 12⟩]),
  ("filler", [
    ⟨plit "just", "", "Common minimizer; remove to strengthen tone.", 8⟩,
    ⟨plit "really", "", "Intensifier that rarely adds precision.", 6⟩,
    ⟨plit "very", "", "Vague intensifier; replace with specifics.", 6⟩,
    ⟨plit "kind of", "", "Vague - tighten phrasing.", 8⟩]),
  ("neg_self", [
    ⟨plit "I need your help", "", "Shift from dependency to initiative.", 12⟩,
    ⟨plit "I'm bad at", "I'm improving at", "Reframe into growth.", 14⟩,
    ⟨plit "I can't", "I can", "Assert capability or next step.", 16⟩,
    ⟨plit "I always mess up", "I’m learning from errors", "Replace global negative with growth.", 16⟩,
    ⟨plit "sorry to bother", "", "Remove apology when not needed.", 18⟩]),
  ("grammar", [
    ⟨plit "ill", "I'll", "Fixes contraction.", 5⟩,
    ⟨plit "its", "it's", "Adds missing apostrophe where needed.", 5⟩,
    ⟨plit "dont", "don't", "Fix grammar.", 5⟩,
    ⟨plit "doesnt", "doesn't", "Fix grammar.", 5⟩,
    ⟨plit "im", "I'm", "Fix grammar.", 5⟩,
    ⟨multiSpaceRE, " ", "Collapse repeated spaces.", 2⟩]),
  ("intensifiers", [
    ⟨plit "always", "", "Absolutes can sound reactive; remove or qualify.", 6⟩,
    ⟨plit "never", "", "Absolutes can sound reactive; remove or qualify.", 6⟩,
    ⟨plit "extremely", "", "Over-intense; prefer specifics.", 6⟩,
    ⟨plit "highly", "", "Vague intensifier; prefer specifics.", 4⟩])]

/-- The `CATEGORY_TO_TYPE` mapping, with the source's
`.get(category, ChangeType.QUALIFIER_REMOVED)` default. -/
def CATEGORY_TO_TYPE (c : String) : ChangeType :=
  if c = "hedging" then .HEDGING_REMOVED
  else if c = "uncertainty" then .UNCERTAINTY_REMOVED
  else if c = "weak_verbs" then .WEAK_VERB_STRENGTHENED
  else if c = "passive" then .PASSIVE_TO_ACTIVE
  else if c = "questions" then .QUESTION_TO_STATEMENT
  else if c = "grammar" then .GRAMMAR_FIXED
  else if c = "filler" then .FILLER_REMOVED
  else if c = "neg_self" then .NEGATIVE_SELF_TALK_REFRAMED
  else if c = "intensifiers" then .INTENSIFIER_TONED_DOWN
  else .QUALIFIER_REMOVED

/-- Total penalty: for every rule of the library, the number of its
matches in the text times its impact, summed. -/
def rulePenalty (text : String) : Nat :=
  (PATTERNS.map (fun cp =>
    (cp.2.map (fun r => countMatches r.pat text * r.impact)).sum)).sum

/-- `LunaCoach.detect_confidence`. -/
def detect_confidence (text : String) : ℚ :=
  if isBlank text then 100
  else
    let words : Nat := max 1 (wordCount text)
    let penalty : Nat := rulePenalty text
    min 100 (max 0 (100 - ((penalty : ℚ) / (words : ℚ) * 100)))

/-- One collected match of `LunaCoach._iter_matches`: its span in the text
it was found in, the matched substring (`m.group(0)`), and the matching
rule's category, replacement, explanation and impact. -/
structure RawMatch where
  start : Nat
  stop : Nat
  category : String
  before : String
  repl : String
  expl : String
  impact : Nat
deriving Repr

/-- All matches of all rules, category-major then rule-major then left to
right — the order `_iter_matches` yields them in. -/
def iterMatches (text : String) : List RawMatch :=
  PATTERNS.flatMap (fun cp =>
    cp.2.flatMap (fun r =>
      (findall r.pat text).map (fun se =>
        ⟨se.1, se.2, cp.1, sliceNat text se.1 se.2, r.repl, r.expl, r.impact⟩)))

/-- Strict lexicographic order on the sort key `(start, end)`. -/
def keyLT (a b : RawMatch) : Bool :=
  a.start < b.start || (a.start = b.start && a.stop < b.stop)

/-- Insert `x` after every element whose key is not greater — the
insertion step of a stable sort. -/
def insertRM (x : RawMatch) : List RawMatch → List RawMatch
  | [] => [x]
  | y :: t => if keyLT x y then x :: y :: t else y :: insertRM x t

/-- Stable sort by `(start, end)`: Python's `matches.sort(key=lambda x:
(x[0], x[1]))` (`list.sort` is stable). -/
def sortRM (l : List RawMatch) : List RawMatch :=
  l.foldl (fun acc x => insertRM x acc) []

/-- The sorted match list the transformation loop runs over. -/
def sortedMatches (text : String) : List RawMatch :=
  sortRM (iterMatches text)

/-- The running state of the splice loop of `transform_with_tracking`:
the output pieces joined so far, the cursor `last_idx`, the changes
recorded so far, and the cumulative length shift. -/
structure SpliceState where
  out : String
  last_idx : Nat
  changes : List Transformation
  shift : Int

/-- The length change a match's replacement causes:
`len(after_text) - (end - start)`. -/
def delta (m : RawMatch) : Int :=
  (m.repl.length : Int) - ((m.stop : Int) - (m.start : Int))

/-- The `Transformation` recorded for match `m` when the cumulative shift
of the edits before it is `sh`. -/
def mkChange (m : RawMatch) (sh : Int) : Transformation :=
  { start := (m.start : Int) + sh
    stop := (m.stop : Int) + sh
    before := m.before
    after := if m.repl = "" then "[removed]" else m.repl
    change_type := CATEGORY_TO_TYPE m.category
    explanation := m.expl
    confidence_impact := m.impact }

/-- One iteration of the splice loop: copy the untouched span since the
cursor (`original[last_idx:start]`, empty when the cursor has passed
`start`), copy the replacement, record the Transformation with
shift-adjusted offsets, move the cursor to the match's end and update the
shift. -/
def applyMatch (original : String) (st : SpliceState) (m : RawMatch) : SpliceState :=
  { out := st.out ++ sliceNat original st.last_idx m.start ++ m.repl
    last_idx := m.stop
    changes := st.changes ++ [mkChange m st.shift]
    shift := st.shift + delta m }

/-- The spliced text before cleanup: the loop over the sorted matches
followed by `out.append(original[last_idx:])` and the join. -/
def splicedText (text : String) : String :=
  let st := (sortedMatches text).foldl (applyMatch text) ⟨"", 0, [], 0⟩
  st.out ++ sliceFrom text st.last_idx

/-- The change list the loop records. -/
def splicedChanges (text : String) : List Transformation :=
  ((sortedMatches text).foldl (applyMatch text) ⟨"", 0, [], 0⟩).changes

/-- Core of `re.sub(r"\s+", " ", s)`: every maximal whitespace run becomes
one space.  The flag records whether the previous character was part of a
whitespace run already emitted as `' '`. -/
def collapseAux : List Char → Bool → List Char
  | [], _ => []
  | c :: t, prevSpace =>
    if isSpace c then
      if prevSpace then collapseAux t true else ' ' :: collapseAux t true
    else c :: collapseAux t false

/-- Python `str.strip()` (whitespace at both ends removed). -/
def stripChars (l : List Char) : List Char :=
  ((l.dropWhile isSpace).reverse.dropWhile isSpace).reverse

/-- `re.sub(r"\s+", " ", s).strip()`: collapse whitespace runs to single
spaces and trim. -/
def collapseWs (s : String) : String :=
  (stripChars (collapseAux s.data false)).asString

/-- Core of `re.sub(r"\s+([.,!?;:])", r"\1", s)`: a maximal whitespace run
directly followed by one of `.,!?;:` is dropped (the backtracking regex
can only succeed on a whole run, since shorter attempts end on a
whitespace character).  `ws` buffers the current whitespace run,
reversed. -/
def punctFixAux : List Char → List Char → List Char
  | ws, [] => ws.reverse
  | ws, c :: t =>
    if isSpace c then punctFixAux (c :: ws) t
    else if isPunct c && !ws.isEmpty then c :: punctFixAux [] t
    else ws.reverse ++ c :: punctFixAux [] t

/-- `re.sub(r"\s+([.,!?;:])", r"\1", s)`. -/
def punctFix (s : String) : String :=
  (punctFixAux [] s.data).asString

/-- `transformed[0].upper() + transformed[1:]` when non-empty. -/
def capFirst (s : String) : String :=
  match s.data with
  | [] => ""
  | c :: t => (c.toUpper :: t).asString

/-- The cleanup pass of `transform_with_tracking` (source lines 209-212):
collapse-and-strip, drop whitespace before punctuation, uppercase the
first character. -/
def cleanup (s : String) : String :=
  capFirst (punctFix (collapseWs s))

/-- `LunaCoach.transform_with_tracking`.  `nowIso` stands for the
`datetime.now(timezone.utc).isoformat()` reading. -/
def transform_with_tracking (text : String) (nowIso : String) : TransformationReport :=
  if isBlank text then
    { original := text, transformed := text, changes := []
      confidence_before := 100, confidence_after := 100
      total_words_removed := 0, total_changes := 0, created_at_iso := nowIso }
  else
    let original := text
    let confidence_before := detect_confidence original
    let transformed := cleanup (splicedText original)
    let changes := splicedChanges original
    let confidence_after := detect_confidence transformed
    let words_removed : Int :=
      max 0 ((wordCount original : Int) - (wordCount transformed : Int))
    { original := original, transformed := transformed, changes := changes
      confidence_before := confidence_before, confidence_after := confidence_after
      total_words_removed := words_removed, total_changes := changes.length
      created_at_iso := nowIso }

end LunaCoach

/-! ### The coherence framework (src/luna_framework.py) -/

namespace ChaosDetector

/-- The compiled `HEDGING` pattern of `ChaosDetector`. -/
def HEDGING : RE :=
  wbd (altL (lit "maybe") [lit "perhaps", lit "possibly", lit "might", lit "could",
    lit "probably", lit "likely", lit "I think", lit "I believe", lit "I guess",
    lit "I suppose", lit "seems like", lit "kind of", lit "sort of", lit "somewhat",
    lit "rather", lit "fairly"])

/-- The compiled `UNCERTAINTY` pattern of `ChaosDetector`. -/
def UNCERTAINTY : RE :=
  wbd (altL (lit "unclear") [lit "ambiguous", lit "uncertain", lit "confused",
    lit "unsure", lit "unknown", lit "don't know", lit "can't tell",
    lit "hard to say", lit "difficult to determine", lit "question", lit "doubt",
    lit "wonder"])

/-- `ChaosDetector.detect_chaos`. -/
def detect_chaos (text : String) : ℚ :=
  if text = "" then 0
  else
    let words := wordCount text
    if words = 0 then 0
    else
      let hedging := countMatches HEDGING text
      let uncertainty := countMatches UNCERTAINTY text
      let questions := (text.data.filter (fun c => c = '?')).length * 2
      let chaos_markers := hedging + uncertainty + questions
      let normalized : ℚ := (chaos_markers : ℚ) / (words : ℚ) * 100
      min (normalized / 20) 1

end ChaosDetector

namespace LunaFramework

/-- `LunaFramework.quick_score`: delegates to the chaos detector. -/
def quick_score (text : String) : ℚ :=
  ChaosDetector.detect_chaos text

end LunaFramework

/-! ### Definitions following the specification's words, for comparison -/

/-- `clamp(x, lo, hi)` as the specification writes the scoring formula. -/
def clamp (x lo hi : ℚ) : ℚ :=
  min hi (max lo x)

/-- The scoring formula exactly as the claim states it for every text,
with no special case for blank input:
`clamp(100 - penalty/word_count*100, 0, 100)` over the whitespace-split
word count (minimum 1) and the summed rule penalty. -/
def scoreFormulaSpec (text : String) : ℚ :=
  clamp (100 - ((LunaCoach.rulePenalty text : ℚ) / ((max 1 (wordCount text) : Nat) : ℚ) * 100))
    0 100

/-- Cleanup step (3) as the specification states it: ensure a single space
after a punctuation character when it is immediately followed by a
letter. -/
def specEnsureSpaceAfterPunct : List Char → List Char
  | [] => []
  | [c] => [c]
  | c :: d :: t =>
    if isPunct c && d.isAlpha then c :: ' ' :: specEnsureSpaceAfterPunct (d :: t)
    else c :: specEnsureSpaceAfterPunct (d :: t)

/-- The four-step cleanup pipeline as the specification states it:
(1) collapse whitespace and trim; (2) remove whitespace before
punctuation; (3) ensure a space after punctuation before a letter;
(4) uppercase the first character. -/
def specCleanup (s : String) : String :=
  LunaCoach.capFirst
    ((specEnsureSpaceAfterPunct (LunaCoach.punctFix (LunaCoach.collapseWs s)).data).asString)

/-! ### Derived descriptions of the splice loop, used to state C1 -/

namespace LunaCoach

/-- Cumulative length shift contributed by the first `i` sorted matches:
the value of `shift` when the `i`-th match is recorded. -/
def shiftBefore (ms : List RawMatch) (i : Nat) : Int :=
  ((ms.take i).map delta).sum

/-- The change list the splice loop records, computed directly from the
sorted match list and the running shift. -/
def changesSpec : List RawMatch → Int → List Transformation
  | [], _ => []
  | m :: t, sh => mkChange m sh :: changesSpec t (sh + delta m)

end LunaCoach

/-- The concrete input of the specification's scenario 2. -/
def scenario2Input : String :=
  "Sorry to bother you, but I was just wondering if maybe you might be able to help?"

/-- An input on which re-running the transformation lowers the confidence
score: the first pass assembles the passive phrase "was tested by" (the
two double spaces are collapsed by the whitespace rule while the passive
rule consumes the span), and the second pass deletes it, bringing "kind"
and "of" together into a freshly penalised "kind of". -/
def regressionInput : String :=
  "kind was is  tested  by of z z z z z z z z z z z z"

/-! ## Helper lemmas -/

namespace LunaCoach

theorem detect_confidence_nonneg (text : String) : 0 ≤ detect_confidence text := by
  unfold detect_confidence
  split
  · norm_num
  · exact le_min (by norm_num) (le_max_left 0 _)

theorem detect_confidence_le (text : String) : detect_confidence text ≤ 100 := by
  unfold detect_confidence
  split
  · norm_num
  · exact min_le_left _ _

theorem transform_of_blank (text nowIso : String) (hb : isBlank text = true) :
    transform_with_tracking text nowIso =
      { original := text, transformed := text, changes := []
        confidence_before := 100, confidence_after := 100
        total_words_removed := 0, total_changes := 0, created_at_iso := nowIso } := by
  simp [transform_with_tracking, hb]

theorem transform_of_not_blank (text nowIso : String) (hb : isBlank text = false) :
    transform_with_tracking text nowIso =
      { original := text
        transformed := cleanup (splicedText text)
        changes := splicedChanges text
        confidence_before := detect_confidence text
        confidence_after := detect_confidence (cleanup (splicedText text))
        total_words_removed :=
          max 0 ((wordCount text : Int) - (wordCount (cleanup (splicedText text)) : Int))
        total_changes := (splicedChanges text).length
        created_at_iso := nowIso } := by
  simp [transform_with_tracking, hb]

theorem foldl_applyMatch_changes (o : String) (ms : List RawMatch) (st : SpliceState) :
    ((ms.foldl (applyMatch o) st).changes) = st.changes ++ changesSpec ms st.shift := by
  induction ms generalizing st with
  | nil => simp [changesSpec]
  | cons m t ih =>
    rw [List.foldl_cons, ih]
    simp [applyMatch, changesSpec]

theorem changesSpec_length (ms : List RawMatch) (sh : Int) :
    (changesSpec ms sh).length = ms.length := by
  induction ms generalizing sh with
  | nil => rfl
  | cons m t ih => simp [changesSpec, ih]

theorem changesSpec_get? (ms : List RawMatch) (sh : Int) (i : Nat) :
    (changesSpec ms sh).get? i =
      (ms.get? i).map (fun m => mkChange m (sh + shiftBefore ms i)) := by
  induction ms generalizing sh i with
  | nil => simp [changesSpec]
  | cons m t ih =>
    cases i with
    | zero => simp [changesSpec, shiftBefore]
    | succ i =>
      simp only [changesSpec, List.get?_cons_succ, ih, shiftBefore, List.take_succ_cons,
        List.map_cons, List.sum_cons, add_assoc]

theorem before_eq_slice_of_mem (text : String) (m : RawMatch)
    (hm : m ∈ iterMatches text) : m.before = sliceNat text m.start m.stop := by
  simp only [iterMatches, List.mem_flatMap, List.mem_map] at hm
  obtain ⟨cp, _, r, _, se, _, rfl⟩ := hm
  rfl

theorem mem_of_mem_insertRM {a x : RawMatch} :
    ∀ {l : List RawMatch}, a ∈ insertRM x l → a = x ∨ a ∈ l := by
  intro l
  induction l with
  | nil => simp [insertRM]
  | cons y t ih =>
    simp only [insertRM]
    split
    · intro h
      rcases List.mem_cons.mp h with h1 | h1
      · exact Or.inl h1
      · exact Or.inr h1
    · intro h
      rcases List.mem_cons.mp h with h1 | h1
      · exact Or.inr (List.mem_cons.mpr (Or.inl h1))
      · rcases ih h1 with h2 | h2
        · exact Or.inl h2
        · exact Or.inr (List.mem_cons.mpr (Or.inr h2))

theorem mem_of_mem_sortFold :
    ∀ (l acc : List RawMatch) (a : RawMatch),
      a ∈ l.foldl (fun acc x => insertRM x acc) acc → a ∈ acc ∨ a ∈ l := by
  intro l
  induction l with
  | nil => intro acc a h; exact Or.inl h
  | cons x t ih =>
    intro acc a h
    rw [List.foldl_cons] at h
    rcases ih _ a h with h1 | h1
    · rcases mem_of_mem_insertRM h1 with h2 | h2
      · exact Or.inr (h2 ▸ List.mem_cons_self x t)
      · exact Or.inl h2
    · exact Or.inr (List.mem_cons.mpr (Or.inr h1))

theorem mem_iterMatches_of_mem_sorted (text : String) (m : RawMatch)
    (h : m ∈ sortedMatches text) : m ∈ iterMatches text := by
  rcases mem_of_mem_sortFold (iterMatches text) [] m h with h1 | h1
  · cases h1
  · exact h1

theorem transform_changes_eq (text nowIso : String) (hb : isBlank text = false) :
    (transform_with_tracking text nowIso).changes =
      changesSpec (sortedMatches text) 0 := by
  rw [transform_of_not_blank text nowIso hb]
  simp [splicedChanges, foldl_applyMatch_changes]

theorem transform_total_changes_len (text nowIso : String) :
    (transform_with_tracking text nowIso).total_changes =
      (transform_with_tracking text nowIso).changes.length := by
  rcases Bool.eq_false_or_eq_true (isBlank text) with hb | hb
  · simp only [transform_of_blank text nowIso hb]
    rfl
  · simp only [transform_of_not_blank text nowIso hb]

theorem transform_cb_nonneg (text nowIso : String) :
    0 ≤ (transform_with_tracking text nowIso).confidence_before := by
  rcases Bool.eq_false_or_eq_true (isBlank text) with hb | hb
  · simp only [transform_of_blank text nowIso hb]
    norm_num
  · simp only [transform_of_not_blank text nowIso hb]
    exact detect_confidence_nonneg text

theorem transform_cb_le (text nowIso : String) :
    (transform_with_tracking text nowIso).confidence_before ≤ 100 := by
  rcases Bool.eq_false_or_eq_true (isBlank text) with hb | hb
  · simp only [transform_of_blank text nowIso hb]
    norm_num
  · simp only [transform_of_not_blank text nowIso hb]
    exact detect_confidence_le text

theorem transform_ca_nonneg (text nowIso : String) :
    0 ≤ (transform_with_tracking text nowIso).confidence_after := by
  rcases Bool.eq_false_or_eq_true (isBlank text) with hb | hb
  · simp only [transform_of_blank text nowIso hb]
    norm_num
  · simp only [transform_of_not_blank text nowIso hb]
    exact detect_confidence_nonneg (cleanup (splicedText text))

theorem transform_ca_le (text nowIso : String) :
    (transform_with_tracking text nowIso).confidence_after ≤ 100 := by
  rcases Bool.eq_false_or_eq_true (isBlank text) with hb | hb
  · simp only [transform_of_blank text nowIso hb]
    norm_num
  · simp only [transform_of_not_blank text nowIso hb]
    exact detect_confidence_le (cleanup (splicedText text))

theorem transform_twr_nonneg (text nowIso : String) :
    0 ≤ (transform_with_tracking text nowIso).total_words_removed := by
  rcases Bool.eq_false_or_eq_true (isBlank text) with hb | hb
  · simp only [transform_of_blank text nowIso hb]
    exact le_refl 0
  · simp only [transform_of_not_blank text nowIso hb]
    exact le_max_left 0
      ((wordCount text : Int) - (wordCount (cleanup (splicedText text)) : Int))

end LunaCoach

/-! ## The claims -/

open LunaCoach in
/-- Claim C5 (corrected): the two reports of one text differ only in their
`created_at_iso` timestamp — every other field of the report, and the
score, is a pure function of the input text, with no dependence on prior
calls.  (As stated, the claim is false: `created_at_iso` records the wall
clock, so two invocations do not return identical reports.) -/
theorem C5_pure_up_to_timestamp (text now1 now2 : String) :
    (transform_with_tracking text now1).original = (transform_with_tracking text now2).original ∧
    (transform_with_tracking text now1).transformed =
      (transform_with_tracking text now2).transformed ∧
    (transform_with_tracking text now1).changes = (transform_with_tracking text now2).changes ∧
    (transform_with_tracking text now1).confidence_before =
      (transform_with_tracking text now2).confidence_before ∧
    (transform_with_tracking text now1).confidence_after =
      (transform_with_tracking text now2).confidence_after ∧
    (transform_with_tracking text now1).total_words_removed =
      (transform_with_tracking text now2).total_words_removed ∧
    (transform_with_tracking text now1).total_changes =
      (transform_with_tracking text now2).total_changes ∧
    detect_confidence text = detect_confidence text := by
  cases hb : isBlank text with
  | false =>
    rw [transform_of_not_blank text now1 hb, transform_of_not_blank text now2 hb]
    exact ⟨rfl, rfl, rfl, rfl, rfl, rfl, rfl, rfl⟩
  | true =>
    rw [transform_of_blank text now1 hb, transform_of_blank text now2 hb]
    exact ⟨rfl, rfl, rfl, rfl, rfl, rfl, rfl, rfl⟩

open LunaCoach in
/-- Claim C5, counterexample to the claim as stated: two invocations of
the transformation on the same text, at different wall-clock readings,
return reports that are not identical (they differ in
`created_at_iso`). -/
theorem C5_counterexample :
    transform_with_tracking "maybe" "2024-01-01T00:00:00+00:00" ≠
      transform_with_tracking "maybe" "2024-01-02T00:00:00+00:00" := by
  intro h
  have h2 := congrArg TransformationReport.created_at_iso h
  rw [transform_of_not_blank "maybe" _ (by decide), transform_of_not_blank "maybe" _ (by decide)] at h2
  exact absurd h2 (by decide)

open LunaCoach in
/-- Claim C7: for empty or whitespace-only input the score is exactly 100
and the report has an empty change list and both confidence scores equal
to 100 (a total, non-failing outcome). -/
theorem C7_blank_input (text nowIso : String) (hb : isBlank text = true) :
    detect_confidence text = 100 ∧
    (transform_with_tracking text nowIso).changes = [] ∧
    (transform_with_tracking text nowIso).confidence_before = 100 ∧
    (transform_with_tracking text nowIso).confidence_after = 100 := by
  rw [transform_of_blank text nowIso hb]
  refine ⟨?_, rfl, rfl, rfl⟩
  unfold detect_confidence
  rw [if_pos hb]

/-- Claim C7, witness: the two-space input is whitespace-only, scores 100,
and its report has no changes and both scores at 100. -/
theorem C7_blank_input_witness :
    isBlank "  " = true ∧
    (LunaCoach.detect_confidence "  " = 100 ∧
      (LunaCoach.transform_with_tracking "  " "").changes = [] ∧
      (LunaCoach.transform_with_tracking "  " "").confidence_before = 100 ∧
      (LunaCoach.transform_with_tracking "  " "").confidence_after = 100) :=
  ⟨by decide, C7_blank_input "  " "" (by decide)⟩

open LunaCoach in
/-- Claim C8: every report satisfies `total_changes = length(changes)`,
both confidence scores lie in `[0, 100]`, and `total_words_removed ≥ 0`;
moreover the score of any text lies in `[0, 100]`. -/
theorem C8_report_invariants (text nowIso : String) :
    (transform_with_tracking text nowIso).total_changes =
      (transform_with_tracking text nowIso).changes.length ∧
    0 ≤ (transform_with_tracking text nowIso).confidence_before ∧
    (transform_with_tracking text nowIso).confidence_before ≤ 100 ∧
    0 ≤ (transform_with_tracking text nowIso).confidence_after ∧
    (transform_with_tracking text nowIso).confidence_after ≤ 100 ∧
    0 ≤ (transform_with_tracking text nowIso).total_words_removed ∧
    0 ≤ detect_confidence text ∧ detect_confidence text ≤ 100 := by
  exact ⟨transform_total_changes_len text nowIso, transform_cb_nonneg text nowIso,
    transform_cb_le text nowIso, transform_ca_nonneg text nowIso,
    transform_ca_le text nowIso, transform_twr_nonneg text nowIso,
    detect_confidence_nonneg text, detect_confidence_le text⟩

open LunaCoach in
/-- Claim C9: the report carries the input back verbatim in its
`original` field, for every input including blank ones. -/
theorem C9_original_verbatim (text nowIso : String) :
    (transform_with_tracking text nowIso).original = text := by
  cases hb : isBlank text with
  | false => rw [transform_of_not_blank text nowIso hb]
  | true => rw [transform_of_blank text nowIso hb]

/-- Claim C10: the alternate scorer `ChaosDetector.detect_chaos`, exposed
as `LunaFramework.quick_score`, always returns a value in `[0, 1]` and
returns exactly 0 for empty input — the opposite endpoint convention from
the coach's 0-100 score, which gives 100 to empty text. -/
theorem C10_quick_score_bounds :
    (∀ text, 0 ≤ LunaFramework.quick_score text ∧ LunaFramework.quick_score text ≤ 1) ∧
    LunaFramework.quick_score "" = 0 ∧ LunaCoach.detect_confidence "" = 100 := by
  refine ⟨fun text => ?_, rfl, rfl⟩
  unfold LunaFramework.quick_score ChaosDetector.detect_chaos
  split
  · norm_num
  · by_cases hw : wordCount text = 0
    · simp [hw]
    · simp only [hw, if_false, reduceIte]
      constructor
      · exact le_min (by positivity) (by norm_num)
      · exact min_le_right _ _

open LunaCoach in
/-- Claim C1, counterexample to the claim as stated: on the input
"maybe maybe" the second recorded change has shifted offsets `[1, 6)`, and
the slice of the original text at those offsets is "aybe ", not its
`before` text "maybe". -/
theorem C1_counterexample :
    ((transform_with_tracking "maybe maybe" "").changes.any
      (fun c => !(pySlice "maybe maybe" c.start c.stop == c.before))) = true := by
  decide

open LunaCoach in
/-- Claim C1 (corrected): the offsets stored in the i-th Change are the
i-th sorted match's offsets in the original text, shifted by the
cumulative length change of the earlier edits; the slice of the original
text at the unshifted match offsets equals `before` exactly. -/
theorem C1_offsets_shifted (text nowIso : String) (i : Nat) (c : Transformation)
    (hc : ((transform_with_tracking text nowIso).changes).get? i = some c) :
    ∃ m : RawMatch, (sortedMatches text).get? i = some m ∧
      c.start = (m.start : Int) + shiftBefore (sortedMatches text) i ∧
      c.stop = (m.stop : Int) + shiftBefore (sortedMatches text) i ∧
      c.before = sliceNat text m.start m.stop := by
  rcases Bool.eq_false_or_eq_true (isBlank text) with hb | hb
  · rw [transform_of_blank text nowIso hb] at hc
    simp at hc
  · rw [transform_changes_eq text nowIso hb, changesSpec_get?] at hc
    cases hm : (sortedMatches text).get? i with
    | none => rw [hm] at hc; simp at hc
    | some m =>
      rw [hm] at hc
      simp only [Option.map_some', Option.some.injEq] at hc
      refine ⟨m, rfl, ?_, ?_, ?_⟩
      · rw [← hc]; simp [mkChange]
      · rw [← hc]; simp [mkChange]
      · rw [← hc]
        have hmem : m ∈ iterMatches text :=
          mem_iterMatches_of_mem_sorted text m (List.get?_mem hm)
        simpa [mkChange] using before_eq_slice_of_mem text m hmem

open LunaCoach in
/-- Claim C1, witness: on "maybe maybe" the second change (index 1) has
offsets 1 and 6 — the match offsets 6 and 11 shifted by the −5 of the
first deletion — and the original slice at the match offsets is its
`before`. -/
theorem C1_offsets_shifted_witness :
    ((transform_with_tracking "maybe maybe" "").changes).get? 1 =
      some { start := 1, stop := 6, before := "maybe", after := "[removed]",
             change_type := ChangeType.HEDGING_REMOVED,
             explanation := "Removes hedging to clarify intent.",
             confidence_impact := 10 } ∧
    (∃ m : RawMatch, (sortedMatches "maybe maybe").get? 1 = some m ∧
      (1 : Int) = (m.start : Int) + shiftBefore (sortedMatches "maybe maybe") 1 ∧
      (6 : Int) = (m.stop : Int) + shiftBefore (sortedMatches "maybe maybe") 1 ∧
      "maybe" = sliceNat "maybe maybe" m.start m.stop) :=
  ⟨by decide,
    C1_offsets_shifted "maybe maybe" "" 1
      { start := 1, stop := 6, before := "maybe", after := "[removed]",
        change_type := ChangeType.HEDGING_REMOVED,
        explanation := "Removes hedging to clarify intent.",
        confidence_impact := 10 }
      (by decide)⟩

open LunaCoach in
/-- Claim C2, counterexample to the claim as stated: on the two-space
input the code returns 100 (blank guard), while the claim's formula gives
`clamp(100 - 2/1*100, 0, 100) = 0` (the repeated-whitespace rule matches
once with weight 2 and the word count floors at 1). -/
theorem C2_counterexample :
    detect_confidence "  " = 100 ∧ scoreFormulaSpec "  " = 0 ∧ (100 : ℚ) ≠ 0 := by
  with_unfolding_all decide

open LunaCoach in
/-- Claim C2 (corrected): for every input that is not empty or
whitespace-only, the score is exactly
`clamp(100 - penalty/word_count*100, 0, 100)`; blank input instead takes
the guard and scores 100. -/
theorem C2_score_formula (text : String) (hb : isBlank text = false) :
    detect_confidence text = scoreFormulaSpec text := by
  unfold detect_confidence scoreFormulaSpec clamp
  rw [if_neg (by simp [hb])]

/-- Claim C2, witness: a plain word scores by the formula. -/
theorem C2_score_formula_witness :
    isBlank "hello" = false ∧
      LunaCoach.detect_confidence "hello" = scoreFormulaSpec "hello" :=
  ⟨by decide, C2_score_formula "hello" (by decide)⟩

open LunaCoach in
/-- Claim C3, counterexample to the claim as stated: on input "a.b"
(no rule matches) the code produces "A.b", while the four-step pipeline of
the claim — whose step (3) inserts a space after punctuation followed by a
letter — would produce "A. b". The code has no such step. -/
theorem C3_counterexample :
    (transform_with_tracking "a.b" "").transformed = "A.b" ∧
    specCleanup (splicedText "a.b") = "A. b" ∧
    ("A.b" : String) ≠ "A. b" := by
  decide

open LunaCoach in
/-- Claim C3 (corrected): after the substitutions are spliced in, the
cleanup is exactly three steps in order: (1) collapse whitespace runs to
one space and trim, (2) remove whitespace before `,.!?;:`, (4) uppercase
the first character, preserving the rest.  The claim's step (3) — ensure
a space after punctuation before a letter — does not exist in the code. -/
theorem C3_cleanup_steps (text nowIso : String) (hb : isBlank text = false) :
    (transform_with_tracking text nowIso).transformed =
      capFirst (punctFix (collapseWs (splicedText text))) := by
  simp only [transform_of_not_blank text nowIso hb]
  rfl

/-- Claim C3, witness: the pipeline evaluated on "a.b". -/
theorem C3_cleanup_steps_witness :
    isBlank "a.b" = false ∧
      (LunaCoach.transform_with_tracking "a.b" "").transformed =
        LunaCoach.capFirst
          (LunaCoach.punctFix (LunaCoach.collapseWs (LunaCoach.splicedText "a.b"))) :=
  ⟨by decide, C3_cleanup_steps "a.b" "" (by decide)⟩

open LunaCoach in
/-- Claim C4: on the specification's scenario-2 input the report records
the removal of "Sorry to bother" and "just", the rewrite of
"might be able to" to "can", the conversion of the trailing "?" to ".",
and a positive number of removed words (8).  The transformed text also
shows the overlapping "might be" rule firing on the same span, so the
output reads "iscan" where the two replacements were spliced. -/
theorem C4_scenario2 :
    ((transform_with_tracking scenario2Input "").changes.any
      (fun c => c.before == "Sorry to bother" && c.after == "[removed]")) = true ∧
    ((transform_with_tracking scenario2Input "").changes.any
      (fun c => c.before == "just" && c.after == "[removed]")) = true ∧
    ((transform_with_tracking scenario2Input "").changes.any
      (fun c => c.before == "might be able to" && c.after == "can")) = true ∧
    ((transform_with_tracking scenario2Input "").changes.any
      (fun c => c.before == "?" && c.after == ".")) = true ∧
    (transform_with_tracking scenario2Input "").transformed =
      "You, but I was wondering if you iscan help." ∧
    0 < (transform_with_tracking scenario2Input "").total_words_removed := by
  decide

open LunaCoach in
/-- Claim C6: the code violates the claim.  On `regressionInput` the
first pass ends at confidence 100/17, but running the transformation
again on its own output ends at confidence 0 — re-running regresses
confidence, contradicting the specification's convergence property. -/
theorem C6_second_pass_regression :
    (transform_with_tracking regressionInput "").confidence_after = 100 / 17 ∧
    (transform_with_tracking
        (transform_with_tracking regressionInput "").transformed "").confidence_after = 0 ∧
    (transform_with_tracking
        (transform_with_tracking regressionInput "").transformed "").confidence_after <
      (transform_with_tracking regressionInput "").confidence_after := by
  with_unfolding_all decide

end Luna
